import Mathlib

/-!
Shallow embedding of the `ticks` websocket streaming client of the go-tiqs
repository, together with theorems settling the frozen claims about it.

The embedding follows the Go source of the `ticks` package (the websocket
client): the frame decoder `parseBinaryToTickData`, the helper
`bigEndianToInt`, the subscription registry operations (`Subscribe`,
`resubscribeAll`), the bounded channels created by `NewWS`, and the retry
loop of `Connect`.  Machine integers are modelled as `Int` with explicit
wrapping where the Go code can overflow; bytes are `Nat` values (< 256 for
well-formed inputs).
-/

namespace GoTiqs

/-- Interpretation of a natural number as a two's-complement signed 32-bit
value, as Go's `int32` reinterpretation of an unsigned bit pattern. -/
def toSigned32 (n : Nat) : Int :=
  if n % 2 ^ 32 < 2 ^ 31 then ((n % 2 ^ 32 : Nat) : Int)
  else ((n % 2 ^ 32 : Nat) : Int) - 2 ^ 32

/-- Wrap-around of an integer into the signed 32-bit range, modelling Go's
`int32` arithmetic overflow (Go signed arithmetic wraps). -/
def wrap32 (x : Int) : Int := (x + 2 ^ 31) % 2 ^ 32 - 2 ^ 31

/-- Wrap-around of an integer into the signed 16-bit range, modelling Go's
`int16(...)` conversion. -/
def wrap16 (x : Int) : Int := (x + 2 ^ 15) % 2 ^ 16 - 2 ^ 15

/-- Big-endian accumulation of a byte list into a natural number. -/
def beBytesToNat (l : List Nat) : Nat := l.foldl (fun acc b => acc * 256 + b) 0

/-- Embeds the Go helper `bigEndianToInt` (src part_001 lines 309-314): it
feeds the byte slice to `binary.Read` with an `int32` target.  `binary.Read`
consumes exactly 4 bytes from the reader, so when the slice has 4 or more
bytes the value is the big-endian signed 32-bit integer of the FIRST 4 bytes
(the Go code passes 8-byte slices for the 64-bit fields, whose last 4 bytes
are therefore ignored); when the slice has fewer than 4 bytes `binary.Read`
fails with an unexpected-EOF error which the Go helper ignores, leaving the
zero value (the 2-byte order-count slices always decode to 0). -/
def bigEndianToInt (l : List Nat) : Int :=
  if 4 ≤ l.length then toSigned32 (beBytesToNat (l.take 4)) else 0

/-- One level of market depth, mirroring the Go struct `DepthLevel`. -/
structure DepthLevel where
  Quantity : Int
  Price : Int
  Orders : Int
deriving DecidableEq

/-- Full market depth, mirroring the Go struct `MarketDepth` (two arrays of
five levels, modelled as lists). -/
structure MarketDepth where
  Bids : List DepthLevel
  Asks : List DepthLevel
deriving DecidableEq

/-- Complete market data for a token, mirroring the Go struct `TickData`. -/
structure TickData where
  Token : Int
  LTP : Int
  NetChangeIndicator : Int
  NetChange : Int
  LTQ : Int
  AvgPrice : Int
  TotalBuyQty : Int
  TotalSellQty : Int
  Open : Int
  High : Int
  Close : Int
  Low : Int
  Volume : Int
  LTT : Int
  Time : Int
  OI : Int
  OIDayHigh : Int
  OIDayLow : Int
  LowerLimit : Int
  UpperLimit : Int
  MarketDepth : MarketDepth
deriving DecidableEq

/-- The zero value of `DepthLevel`, as produced by Go's zero initialization. -/
def zeroDepthLevel : DepthLevel := ⟨0, 0, 0⟩

/-- The zero value of `TickData` (`var tick TickData` in the Go source):
every numeric field 0 and five zero levels on each depth side. -/
def zeroTick : TickData :=
  ⟨0, 0, 0, 0, 0, 0, 0, 0, 0, 0, 0, 0, 0, 0, 0, 0, 0, 0, 0, 0,
   ⟨List.replicate 5 zeroDepthLevel, List.replicate 5 zeroDepthLevel⟩⟩

/-- Decode error of the frame decoder: the Go code returns
`fmt.Errorf("invalid data length: %d", len(data))`. -/
inductive ParseError where
  | invalidDataLength (n : Nat) : ParseError
deriving DecidableEq

/-- Go slice expression `data[a:b]` (value only; bounds are checked by the
instrumented decoder below). -/
def sliceL (data : List Nat) (a b : Nat) : List Nat := (data.drop a).take (b - a)

/-- Fuel-driven floor of the base-2 logarithm (structural recursion so that
the kernel can evaluate it; the fuel is always sufficient when it is at
least the argument). -/
def log2Fuel : Nat → Nat → Nat
  | 0, _ => 0
  | fuel + 1, n => if n < 2 then 0 else 1 + log2Fuel fuel (n / 2)

/-- Floor of the base-2 logarithm of a natural number (0 for 0 and 1). -/
def log2floor (n : Nat) : Nat := log2Fuel n n

/-- Decides `den · 2^e ≤ num` for an integer (possibly negative) exponent,
by clearing the power of two to whichever side keeps it natural. -/
def pow2Le (den num : Nat) (e : Int) : Bool :=
  if 0 ≤ e then decide (den * 2 ^ e.toNat ≤ num) else decide (den ≤ num * 2 ^ (-e).toNat)

/-- Binade of the positive rational `num / den` (with `num, den > 0`): the
unique `e` with `2^e ≤ num/den < 2^(e+1)`.  The difference of the leading
digit positions of `num` and `den` is off by at most one, so two
comparisons pin `e` exactly. -/
def ratBinade (num den : Nat) : Int :=
  let d : Int := (log2floor num : Int) - (log2floor den : Int)
  if pow2Le den num d then (if pow2Le den num (d + 1) then d + 1 else d) else d - 1

/-- Round the positive rational `num / den` (with `num, den > 0`) to 53
significant bits, round-to-nearest-ties-to-even (IEEE-754 binary64
semantics in the normal range): the result `(m, t)` denotes the value
`m · 2^t`.  The scaled mantissa `num/den · 2^(52−e)` is compared with its
integer floor through the exact remainder of a natural division. -/
def round53 (num den : Nat) : Nat × Int :=
  let e := ratBinade num den
  let s := 52 - e
  let A := num * 2 ^ s.toNat
  let B := den * 2 ^ (-s).toNat
  let q := A / B
  let r := A % B
  let m := if 2 * r < B then q else if B < 2 * r then q + 1 else if q % 2 = 0 then q else q + 1
  (m, e - 52)

/-- The exact value of Go's `int32((float64(diff) / float64(close)) * 100)`
for in-range results, following IEEE-754 binary64 arithmetic step by step:
the `int32` operands convert to `float64` exactly (their magnitude is below
`2^53`); the division rounds the exact quotient to the nearest double
(`round53`, ties to even); the multiplication by 100 rounds the exact
product — `m₁·100` at the scale `2^t₁` — to the nearest double again; the
conversion to `int32` truncates toward zero (for the positive magnitude,
a floor division by the power of two).  Every intermediate value arising
from nonzero 32-bit operands lies in the normal finite double range, so
subnormals and overflow to infinity cannot occur.  `diff = 0` yields the
exact double 0, hence result 0.  `close = 0` makes the Go division produce
an infinity (or NaN) whose `int32` conversion is implementation-defined;
it is modelled as 0 and no theorem asserts the net-change value there. -/
def float64NetChange (diff close : Int) : Int :=
  if close = 0 then 0
  else if diff = 0 then 0
  else
    let p1 := round53 diff.natAbs close.natAbs
    let p2 := round53 (p1.1 * 100) 1
    let k := p2.2 + p1.2
    let mag : Nat := if 0 ≤ k then p2.1 * 2 ^ k.toNat else p2.1 / 2 ^ (-k).toNat
    (if (diff < 0 ↔ close < 0) then 1 else -1) * (mag : Int)

/-- Embeds the net-change computation of the Go decoder (line 251):
`int32((float64(tick.LTP-tick.Close) / float64(tick.Close)) * 100)`.
The `int32` subtraction `tick.LTP - tick.Close` wraps (`wrap32`); the
float64 pipeline and the truncating conversion are `float64NetChange`; Go
leaves the conversion of an out-of-range float to `int32`
implementation-defined, modelled here as 32-bit wrap-around (theorems
about the net-change value carry no-overflow hypotheses so that this
choice is never load-bearing). -/
def netChangeGo (ltp close : Int) : Int :=
  wrap32 (float64NetChange (wrap32 (ltp - close)) close)

/-- Fields set unconditionally once the length guard passes (lines 246-247):
token from bytes 0-4 and LTP from bytes 4-8. -/
def baseTick (data : List Nat) : TickData :=
  { zeroTick with
    Token := bigEndianToInt (sliceL data 0 4)
    LTP := bigEndianToInt (sliceL data 4 8) }

/-- Close-derived fields of the 17-byte branch (lines 249-260): previous
close from bytes 13-17, net change, and the indicator sentinel (43 `'+'`
when LTP > close, 45 `'-'` when LTP < close, 32 `' '` when equal). -/
def applyClose (t : TickData) (close : Int) : TickData :=
  { t with
    Close := close
    NetChange := netChangeGo t.LTP close
    NetChangeIndicator := if t.LTP > close then 43 else if t.LTP < close then 45 else 32 }

/-- Guarded close block: the Go code enters it only when the frame length is
exactly 17 (line 249). -/
def applyCloseIf (data : List Nat) (t : TickData) : TickData :=
  if data.length = 17 then applyClose t (bigEndianToInt (sliceL data 13 17)) else t

/-- Extended fields of the `len(data) >= 81` branch (lines 262-276), at the
fixed byte offsets of the source. -/
def applyExtended (data : List Nat) (t : TickData) : TickData :=
  { t with
    AvgPrice := bigEndianToInt (sliceL data 17 21)
    TotalBuyQty := bigEndianToInt (sliceL data 21 29)
    TotalSellQty := bigEndianToInt (sliceL data 29 37)
    Open := bigEndianToInt (sliceL data 37 41)
    High := bigEndianToInt (sliceL data 41 45)
    Close := bigEndianToInt (sliceL data 45 49)
    Low := bigEndianToInt (sliceL data 49 53)
    Volume := bigEndianToInt (sliceL data 53 61)
    LTT := bigEndianToInt (sliceL data 61 65)
    Time := bigEndianToInt (sliceL data 65 69)
    OI := bigEndianToInt (sliceL data 69 73)
    OIDayHigh := bigEndianToInt (sliceL data 73 77)
    OIDayLow := bigEndianToInt (sliceL data 77 81) }

/-- Guarded extended block (line 262). -/
def applyExtendedIf (data : List Nat) (t : TickData) : TickData :=
  if 81 ≤ data.length then applyExtended data t else t

/-- One depth level decoded at byte offset `off` (lines 286-290 / 296-300):
8-byte quantity slice, 4-byte price slice, 2-byte order-count slice, each
fed to `bigEndianToInt` (see its doc comment for the 8- and 2-byte cases). -/
def depthLevelAt (data : List Nat) (off : Nat) : DepthLevel :=
  { Quantity := bigEndianToInt (sliceL data off (off + 8))
    Price := bigEndianToInt (sliceL data (off + 8) (off + 12))
    Orders := wrap16 (bigEndianToInt (sliceL data (off + 12) (off + 14))) }

/-- Depth block of the `len(data) == 229` branch (lines 278-303): circuit
limits at offsets 81-89, then five bid levels at offsets 89 + 14·i and five
ask levels at offsets 159 + 14·i (the loop is unrolled here). -/
def applyDepth (data : List Nat) (t : TickData) : TickData :=
  { t with
    LowerLimit := bigEndianToInt (sliceL data 81 85)
    UpperLimit := bigEndianToInt (sliceL data 85 89)
    MarketDepth :=
      ⟨[depthLevelAt data 89, depthLevelAt data 103, depthLevelAt data 117,
        depthLevelAt data 131, depthLevelAt data 145],
       [depthLevelAt data 159, depthLevelAt data 173, depthLevelAt data 187,
        depthLevelAt data 201, depthLevelAt data 215]⟩ }

/-- Guarded depth block (line 278). -/
def applyDepthIf (data : List Nat) (t : TickData) : TickData :=
  if data.length = 229 then applyDepth data t else t

/-- Embeds `parseBinaryToTickData` (src part_001 lines 233-306): length-1
frames yield a tick whose token is `int32(data[0])` (a `byte`, so the value
is the byte itself, zero-extended); lengths below 17 fail with the
invalid-data-length error; otherwise the base fields are set and the three
guarded blocks apply according to the length. -/
def parseBinaryToTickData (data : List Nat) : Except ParseError TickData :=
  if data.length = 1 then
    .ok { zeroTick with Token := ((data.headD 0 : Nat) : Int) }
  else if data.length < 17 then
    .error (.invalidDataLength data.length)
  else
    .ok (applyDepthIf data (applyExtendedIf data (applyCloseIf data (baseTick data))))

/-- Projection of a decode result to its tick, defaulting to the zero tick
(used only to state theorems about successful decodes). -/
def okTick (r : Except ParseError TickData) : TickData :=
  match r with
  | .ok t => t
  | .error _ => zeroTick

deriving instance DecidableEq for Except

/-! ### Instrumented decoder

`parseBinaryChecked` is the same decoder with every buffer access routed
through a bounds-checked slice operation returning `Option`: `none` models a
Go slice-bounds panic.  The memory-safety claim is settled by proving it
always returns `some` of the result of `parseBinaryToTickData`. -/

/-- Bounds-checked Go slice `data[a:b]`: `none` exactly when Go would panic
(`a > b` or `b > len(data)`). -/
def sliceChecked (data : List Nat) (a b : Nat) : Option (List Nat) :=
  if a ≤ b ∧ b ≤ data.length then some (sliceL data a b) else none

/-- Bounds-checked counterpart of `baseTick`. -/
def baseTickChecked (data : List Nat) : Option TickData := do
  let s0 ← sliceChecked data 0 4
  let s4 ← sliceChecked data 4 8
  pure { zeroTick with Token := bigEndianToInt s0, LTP := bigEndianToInt s4 }

/-- Bounds-checked counterpart of `applyCloseIf`. -/
def applyCloseIfChecked (data : List Nat) (t : TickData) : Option TickData :=
  if data.length = 17 then do
    let s13 ← sliceChecked data 13 17
    pure (applyClose t (bigEndianToInt s13))
  else pure t

/-- Bounds-checked counterpart of `applyExtendedIf`. -/
def applyExtendedIfChecked (data : List Nat) (t : TickData) : Option TickData :=
  if 81 ≤ data.length then do
    let s17 ← sliceChecked data 17 21
    let s21 ← sliceChecked data 21 29
    let s29 ← sliceChecked data 29 37
    let s37 ← sliceChecked data 37 41
    let s41 ← sliceChecked data 41 45
    let s45 ← sliceChecked data 45 49
    let s49 ← sliceChecked data 49 53
    let s53 ← sliceChecked data 53 61
    let s61 ← sliceChecked data 61 65
    let s65 ← sliceChecked data 65 69
    let s69 ← sliceChecked data 69 73
    let s73 ← sliceChecked data 73 77
    let s77 ← sliceChecked data 77 81
    pure { t with
      AvgPrice := bigEndianToInt s17
      TotalBuyQty := bigEndianToInt s21
      TotalSellQty := bigEndianToInt s29
      Open := bigEndianToInt s37
      High := bigEndianToInt s41
      Close := bigEndianToInt s45
      Low := bigEndianToInt s49
      Volume := bigEndianToInt s53
      LTT := bigEndianToInt s61
      Time := bigEndianToInt s65
      OI := bigEndianToInt s69
      OIDayHigh := bigEndianToInt s73
      OIDayLow := bigEndianToInt s77 }
  else pure t

/-- Bounds-checked counterpart of `depthLevelAt`. -/
def depthLevelAtChecked (data : List Nat) (off : Nat) : Option DepthLevel := do
  let sq ← sliceChecked data off (off + 8)
  let sp ← sliceChecked data (off + 8) (off + 12)
  let so ← sliceChecked data (off + 12) (off + 14)
  pure { Quantity := bigEndianToInt sq
         Price := bigEndianToInt sp
         Orders := wrap16 (bigEndianToInt so) }

/-- Bounds-checked counterpart of `applyDepthIf`. -/
def applyDepthIfChecked (data : List Nat) (t : TickData) : Option TickData :=
  if data.length = 229 then do
    let s81 ← sliceChecked data 81 85
    let s85 ← sliceChecked data 85 89
    let b0 ← depthLevelAtChecked data 89
    let b1 ← depthLevelAtChecked data 103
    let b2 ← depthLevelAtChecked data 117
    let b3 ← depthLevelAtChecked data 131
    let b4 ← depthLevelAtChecked data 145
    let a0 ← depthLevelAtChecked data 159
    let a1 ← depthLevelAtChecked data 173
    let a2 ← depthLevelAtChecked data 187
    let a3 ← depthLevelAtChecked data 201
    let a4 ← depthLevelAtChecked data 215
    pure { t with
      LowerLimit := bigEndianToInt s81
      UpperLimit := bigEndianToInt s85
      MarketDepth := ⟨[b0, b1, b2, b3, b4], [a0, a1, a2, a3, a4]⟩ }
  else pure t

/-- The decoder with every byte access bounds-checked; an index access on
the 1-byte branch is checked through `List.getElem?`. -/
def parseBinaryChecked (data : List Nat) : Option (Except ParseError TickData) :=
  if data.length = 1 then do
    let b ← data[0]?
    pure (.ok { zeroTick with Token := ((b : Nat) : Int) })
  else if data.length < 17 then
    pure (.error (.invalidDataLength data.length))
  else do
    let t0 ← baseTickChecked data
    let t1 ← applyCloseIfChecked data t0
    let t2 ← applyExtendedIfChecked data t1
    let t3 ← applyDepthIfChecked data t2
    pure (.ok t3)

/-! ### Bounded channels (the delivery pipe)

`NewWS` (src part_001 lines 92-93) creates `DataChan` with buffer capacity
1000 and `errChan` with capacity 100.  A Go buffered channel is modelled as
a capacity plus the list of buffered items (oldest first). -/

/-- A Go buffered channel: fixed capacity and the buffered items, oldest
first. -/
structure BQueue (α : Type) where
  cap : Nat
  items : List α
deriving DecidableEq

/-- Errors surfaced on the error channel: a read error from the receive loop
(line 208) or a terminal reconnection failure (line 336). -/
inductive RecvError where
  | readError (code : Nat) : RecvError
  | reconnectionFailed (code : Nat) : RecvError
deriving DecidableEq

/-- The tick channel as created by `NewWS`: `make(chan TickData, 1000)`. -/
def initialDataChan : BQueue TickData := ⟨1000, []⟩

/-- The error channel as created by `NewWS`: `make(chan error, 100)`. -/
def initialErrChan : BQueue RecvError := ⟨100, []⟩

/-- Go semantics of a plain (blocking) send `ch <- v` on a buffered channel
with no waiting receiver: if the buffer has free space the value is
appended and the send completes (`some`); if the buffer is full the sender
blocks (`none`). -/
def chanSend {α : Type} (q : BQueue α) (a : α) : Option (BQueue α) :=
  if q.items.length < q.cap then some ⟨q.cap, q.items ++ [a]⟩ else none

/-- Go semantics of a `select` send with a `default` branch on a buffered
channel with no waiting receiver: if the buffer has free space the value is
appended and the flag is `true`; if the buffer is full the channel is left
unchanged, the value is dropped and the flag is `false` — the sender never
blocks. -/
def chanTrySend {α : Type} (q : BQueue α) (a : α) : BQueue α × Bool :=
  if q.items.length < q.cap then (⟨q.cap, q.items ++ [a]⟩, true) else (q, false)

/-- Embeds the error-delivery step of the receive loop and of `reconnect`
(src part_001 lines 208 and 336): both are the plain send
`ws.errChan <- err`, i.e. a blocking send. -/
def emitError (q : BQueue RecvError) (e : RecvError) : Option (BQueue RecvError) :=
  chanSend q e

/-- Embeds the tick-delivery step of the receive loop (src part_001 lines
221-226): a `select` with a `default` branch that logs a warning and drops
the tick when `DataChan` is full. -/
def dataEnqueue (q : BQueue TickData) (t : TickData) : BQueue TickData × Bool :=
  chanTrySend q t

/-! ### Subscription registry and control messages -/

/-- An outbound subscribe/unsubscribe control message: the Go code builds
`map[string]interface\x7b\x7d{"code": code, "mode": mode, mode: tokens}` —
the token list is stored under the dynamic key equal to the mode string,
modelled here by the `tokens` field next to the `mode` field. -/
structure SubMessage where
  code : String
  mode : String
  tokens : List Int
deriving DecidableEq

/-- The subscribe control message built by `Subscribe` (lines 132-136). -/
def subscribeMessage (tokens : List Int) (mode : String) : SubMessage :=
  ⟨"sub", mode, tokens⟩

/-- The subscription registry `ws.subscriptions` (a `sync.Map` from token to
mode), modelled as an association list with at most one entry per token. -/
abbrev Registry : Type := List (Int × String)

/-- Embeds `ws.subscriptions.Store(token, mode)`: upsert of one token. -/
def storeSub : Registry → Int → String → Registry
  | [], t, m => [(t, m)]
  | p :: rest, t, m => if p.1 = t then (t, m) :: rest else p :: storeSub rest t m

/-- Mode currently recorded for a token (`sync.Map` lookup). -/
def lookupMode (reg : Registry) (t : Int) : Option String :=
  (reg.find? (fun p => p.1 == t)).map Prod.snd

/-- Distinct modes present in the registry, in first-appearance order (the
iteration order of the Go `sync.Map.Range` is unspecified; the claims
settled here do not depend on it). -/
def modesOf (reg : Registry) : List String := (reg.map Prod.snd).dedup

/-- Tokens currently assigned to a given mode. -/
def tokensForMode (reg : Registry) (m : String) : List Int :=
  (reg.filter (fun p => p.2 == m)).map Prod.fst

/-- Embeds the message production of `resubscribeAll` (src part_001 lines
341-359): the registry is grouped into `tokensByMode` and one `Subscribe`
call — hence one subscribe control message — is issued per mode present.
This describes what the loop would emit; whether the calls can run at all
depends on the mutex state, see `resubscribeAllLocked`. -/
def resubscribeAll (reg : Registry) : List SubMessage :=
  (modesOf reg).map (fun m => subscribeMessage (tokensForMode reg m) m)

/-- Embeds `resubscribeAll` together with the state of `ws.mu` in the
calling goroutine.  In the source, `resubscribeAll` is invoked only from
`Connect()` (line 113) while `Connect` holds the write lock taken at line
99, and the body of each `Subscribe` call begins with `ws.mu.Lock()` (line
129).  Go's `sync.RWMutex` is not reentrant: a goroutine that re-acquires
a write lock it already holds blocks forever.  So when the registry is
nonempty (the `Range` loop issues at least one `Subscribe` call) and the
lock is held, the first `Subscribe` call deadlocks and nothing is emitted
— modelled as `none`; with an empty registry the loop body never runs and
the step completes with no messages. -/
def resubscribeAllLocked (muHeld : Bool) (reg : Registry) : Option (List SubMessage) :=
  match modesOf reg with
  | [] => some []
  | _ :: _ => if muHeld then none else some (resubscribeAll reg)

/-- Error of a failed control-message send; with no live connection
`sendJSONMessage` returns `websocket.ErrCloseSent` (line 319). -/
inductive SendError where
  | closeSent : SendError
deriving DecidableEq

/-- Client state relevant to `Subscribe`: whether a live connection exists
(`ws.Conn != nil`), the subscription registry, and the token list. -/
structure WSState where
  connAlive : Bool
  registry : Registry
  tokenList : List Int

/-- Embeds `sendJSONMessage` (src part_001 lines 317-328) for the
connection-dependent outcome: with `ws.Conn == nil` it returns
`websocket.ErrCloseSent`; with a live connection the write is modelled as
succeeding (transport-level write failures are outside the state modelled
here, and no claim depends on them). -/
def sendJSONMessage (connAlive : Bool) (_msg : SubMessage) : Except SendError Unit :=
  if connAlive then .ok () else .error .closeSent

/-- Embeds `Subscribe` (src part_001 lines 128-145): the message is built,
every token is stored in the registry with the given mode, the token list
is extended, and only then is the send attempted; its result is returned
unchanged, with no rollback of the registry mutation. -/
def Subscribe (s : WSState) (tokens : List Int) (mode : String) :
    WSState × Except SendError Unit :=
  ({ s with
      registry := tokens.foldl (fun r t => storeSub r t mode) s.registry
      tokenList := s.tokenList ++ tokens },
   sendJSONMessage s.connAlive (subscribeMessage tokens mode))

/-! ### The `Connect` retry loop -/

/-- Observable steps of one `Connect()` call (src part_001 lines 98-125):
the per-attempt ordinal log line, the dial itself, the retry log line, the
fixed sleep, and — on success — the resubscription and the start of the
receive loop. -/
inductive ConnEvent where
  | logAttempt (attempt total : Nat) : ConnEvent
  | dialTry (attempt : Nat) : ConnEvent
  | logRetryWait : ConnEvent
  | sleepDelay (d : Nat) : ConnEvent
  | resubscribeStep : ConnEvent
  | startHandler : ConnEvent
deriving DecidableEq

/-- Result of one `Connect()` call: success at some attempt, or the terminal
error `fmt.Errorf("failed to connect after %d attempts: %w", MaxRetries,
err)` wrapping the last dial failure. -/
inductive ConnectOutcome (E : Type) where
  | connected (attempt : Nat) : ConnectOutcome E
  | failedAfter (attempts : Nat) (last : Option E) : ConnectOutcome E
deriving DecidableEq

/-- The body of the `for attempt := 1; attempt <= ws.MaxRetries` loop of
`Connect`, run over the list of remaining attempt ordinals, threading the
`err` variable (`none` before the first dial). -/
def connectSteps {E : Type} (dial : Nat → Except E Unit) (total delay : Nat) :
    List Nat → Option E → List ConnEvent × ConnectOutcome E
  | [], last => ([], .failedAfter total last)
  | a :: rest, _last =>
    match dial a with
    | .ok _ =>
        ([.logAttempt a total, .dialTry a, .resubscribeStep, .startHandler],
         .connected a)
    | .error e =>
        let r := connectSteps dial total delay rest (some e)
        (.logAttempt a total :: .dialTry a :: .logRetryWait :: .sleepDelay delay :: r.1,
         r.2)

/-- Embeds `Connect()` (src part_001 lines 98-125): attempts `1..MaxRetries`
in order, logging each ordinal, dialing, and sleeping the fixed retry delay
after each failure; exhaustion returns the terminal wrapped error. -/
def Connect {E : Type} (dial : Nat → Except E Unit) (maxRetries delay : Nat) :
    List ConnEvent × ConnectOutcome E :=
  connectSteps dial maxRetries delay (List.range' 1 maxRetries) none

/-- Recognizer for dial events in a `Connect` trace. -/
def isDialTry : ConnEvent → Bool
  | .dialTry _ => true
  | _ => false

/-- The value of the `err` variable after the loop ran over the given
attempt ordinals with an always-failing dialer. -/
def lastErrAux {E : Type} (errs : Nat → E) (l : List Nat) (last : Option E) : Option E :=
  l.foldl (fun _ a => some (errs a)) last

/-! ### Truncation of exact rationals

The claims state the net-change formula as `(LTP − close) / close × 100`
truncated to an integer; `ratTrunc` is that spec-side truncation (toward
zero, as Go's float-to-int conversion rounds). -/

/-- Truncation of a rational toward zero. -/
def ratTrunc (q : ℚ) : Int := if 0 ≤ q then ⌊q⌋ else ⌈q⌉

/-! ### Helper lemmas -/

theorem ratTrunc_neg (q : ℚ) : ratTrunc (-q) = -(ratTrunc q) := by
  unfold ratTrunc
  rcases lt_trichotomy q 0 with h | h | h
  · rw [if_pos (by linarith), if_neg (by linarith), Int.floor_neg]
  · subst h; simp
  · rw [if_neg (by linarith), if_pos (by linarith), Int.ceil_neg]

theorem ratTrunc_intCast_div_pos (x y : Int) (hy : 0 < y) :
    ratTrunc ((x : ℚ) / (y : ℚ)) = x.tdiv y := by
  have hyQ : (0 : ℚ) < (y : ℚ) := by exact_mod_cast hy
  have hyn : y = ((y.toNat : Nat) : Int) := (Int.toNat_of_nonneg hy.le).symm
  rcases le_or_lt 0 x with hx | hx
  · have hq : (0 : ℚ) ≤ (x : ℚ) / (y : ℚ) :=
      div_nonneg (by exact_mod_cast hx) hyQ.le
    rw [ratTrunc, if_pos hq, Int.tdiv_eq_ediv hx hy.le]
    rw [hyn]
    exact_mod_cast Rat.floor_intCast_div_natCast x y.toNat
  · have hq : (x : ℚ) / (y : ℚ) < 0 :=
      div_neg_of_neg_of_pos (by exact_mod_cast hx) hyQ
    rw [ratTrunc, if_neg (by linarith)]
    have h1 : (-(x : ℚ)) / (y : ℚ) = ((-x : Int) : ℚ) / (y : ℚ) := by push_cast; ring
    have h2 : ⌈(x : ℚ) / (y : ℚ)⌉ = -⌊(-(x : ℚ)) / (y : ℚ)⌋ := by
      rw [neg_div, Int.floor_neg]; ring
    rw [h2, h1, hyn]
    have h3 : ⌊((-x : Int) : ℚ) / (((y.toNat : Nat) : Int) : ℚ)⌋
        = (-x) / ((y.toNat : Nat) : Int) := by
      exact_mod_cast Rat.floor_intCast_div_natCast (-x) y.toNat
    rw [h3, ← hyn]
    have h4 : (-x) / y = (-x).tdiv y := (Int.tdiv_eq_ediv (by omega) hy.le).symm
    rw [h4, Int.neg_tdiv, neg_neg]

theorem ratTrunc_intCast_div (x y : Int) (hy : y ≠ 0) :
    ratTrunc ((x : ℚ) / (y : ℚ)) = x.tdiv y := by
  rcases lt_or_gt_of_ne hy with h | h
  · have h1 : ((y : ℚ)) = -(((-y : Int)) : ℚ) := by push_cast; ring
    rw [h1, div_neg, ratTrunc_neg, ratTrunc_intCast_div_pos x (-y) (by omega)]
    rw [Int.tdiv_neg, neg_neg]
  · exact ratTrunc_intCast_div_pos x y h

theorem ratTrunc_formula (a b : Int) (hb : b ≠ 0) :
    ratTrunc ((a : ℚ) / (b : ℚ) * 100) = Int.tdiv (a * 100) b := by
  have h1 : (a : ℚ) / (b : ℚ) * 100 = ((a * 100 : Int) : ℚ) / (b : ℚ) := by
    push_cast; ring
  rw [h1, ratTrunc_intCast_div _ _ hb]

theorem wrap32_eq_self {x : Int} (h1 : -(2 ^ 31) ≤ x) (h2 : x < 2 ^ 31) :
    wrap32 x = x := by
  unfold wrap32
  omega

/-! ### Claim C9 -/

/-- C9, counterexample: the 1-byte frame `[0xFF]` decodes with token 255 —
the byte is zero-extended, not sign-extended (sign extension would give
−1), refuting the claim's "sign-extended as appropriate" reading. -/
theorem c9_counterexample :
    (parseBinaryToTickData [255]).isOk = true
    ∧ (okTick (parseBinaryToTickData [255])).Token = 255
    ∧ ¬ (okTick (parseBinaryToTickData [255])).Token = -1 := by
  decide

/-- C9, amended: for every 1-byte input frame, decoding succeeds and yields
a tick in which only the token field is populated, its value being the
single byte zero-extended (so the token is always in `[0, 256)`, never
negative); every other field is zero. -/
theorem c9_token_zero_extended (b : Nat) (hb : b < 256) :
    parseBinaryToTickData [b] = .ok { zeroTick with Token := ((b : Nat) : Int) }
    ∧ 0 ≤ ((b : Nat) : Int) ∧ ((b : Nat) : Int) < 256 := by
  refine ⟨rfl, Int.ofNat_nonneg b, ?_⟩
  exact_mod_cast hb

/-- Witness for C9 at the byte 255. -/
theorem c9_witness :
    parseBinaryToTickData [255] = .ok { zeroTick with Token := ((255 : Nat) : Int) }
    ∧ 0 ≤ ((255 : Nat) : Int) ∧ ((255 : Nat) : Int) < 256 :=
  c9_token_zero_extended 255 (by decide)

/-! ### Claim C10 -/

/-- C10: a 17-byte frame whose close field (bytes 13-17) decodes to zero is
not rejected: the decoder returns success (no `MalformedFrame` error, no
panic — the error branch depends only on the frame length) and the decoded
close is 0.  The Go code does compute the net change by dividing by that
zero close (a float64 division, which in Go yields an infinity or NaN
rather than panicking); the resulting net-change value is
implementation-defined and is not asserted here. -/
theorem c10_zero_close_not_rejected (data : List Nat)
    (h17 : data.length = 17)
    (hc : bigEndianToInt (sliceL data 13 17) = 0) :
    (parseBinaryToTickData data).isOk = true
    ∧ (okTick (parseBinaryToTickData data)).Close = 0 := by
  unfold parseBinaryToTickData
  rw [if_neg (by omega), if_neg (by omega)]
  unfold applyDepthIf applyExtendedIf applyCloseIf
  rw [if_neg (by omega), if_neg (by omega), if_pos h17, hc]
  exact ⟨rfl, rfl⟩

/-- Witness for C10: a concrete 17-byte frame with LTP 105 and close bytes
all zero decodes successfully. -/
theorem c10_witness :
    (parseBinaryToTickData [0, 0, 0, 1, 0, 0, 0, 105, 0, 0, 0, 0, 0, 0, 0, 0, 0]).isOk = true
    ∧ (okTick (parseBinaryToTickData [0, 0, 0, 1, 0, 0, 0, 105, 0, 0, 0, 0, 0, 0, 0, 0, 0])).Close = 0 :=
  c10_zero_close_not_rejected _ (by decide) (by decide)

/-! ### Claim C1 -/

/-- C1, counterexample: an 18-byte frame whose bytes 13-17 hold the value
100 decodes with close 0 and indicator 0 — the close-derived fields are NOT
populated for lengths 18..80 (the close block requires length exactly 17),
contradicting the claim that they are (the indicator would then be one of
the sentinels 43/45/32, and the close would be 100). -/
theorem c1_counterexample :
    (parseBinaryToTickData [0, 0, 0, 1, 0, 0, 0, 105, 0, 0, 0, 0, 0, 0, 0, 0, 100, 7]).isOk = true
    ∧ (okTick (parseBinaryToTickData [0, 0, 0, 1, 0, 0, 0, 105, 0, 0, 0, 0, 0, 0, 0, 0, 100, 7])).Close = 0
    ∧ ¬ (okTick (parseBinaryToTickData [0, 0, 0, 1, 0, 0, 0, 105, 0, 0, 0, 0, 0, 0, 0, 0, 100, 7])).Close = 100
    ∧ (okTick (parseBinaryToTickData [0, 0, 0, 1, 0, 0, 0, 105, 0, 0, 0, 0, 0, 0, 0, 0, 100, 7])).NetChangeIndicator = 0
    ∧ ¬ ((okTick (parseBinaryToTickData [0, 0, 0, 1, 0, 0, 0, 105, 0, 0, 0, 0, 0, 0, 0, 0, 100, 7])).NetChangeIndicator = 43
         ∨ (okTick (parseBinaryToTickData [0, 0, 0, 1, 0, 0, 0, 105, 0, 0, 0, 0, 0, 0, 0, 0, 100, 7])).NetChangeIndicator = 45
         ∨ (okTick (parseBinaryToTickData [0, 0, 0, 1, 0, 0, 0, 105, 0, 0, 0, 0, 0, 0, 0, 0, 100, 7])).NetChangeIndicator = 32) := by
  decide

/-- C1, amended: frames of length 2..16 fail with the malformed-frame
error; frames of length 18..80 decode successfully and populate ONLY the
token and LTP fields, leaving the close-derived fields (close, net change,
net-change indicator) AND all extended fields at zero. -/
theorem c1_amended :
    (∀ data : List Nat, 2 ≤ data.length → data.length ≤ 16 →
      parseBinaryToTickData data = .error (.invalidDataLength data.length))
    ∧ (∀ data : List Nat, 18 ≤ data.length → data.length ≤ 80 →
      parseBinaryToTickData data
        = .ok { zeroTick with
            Token := bigEndianToInt (sliceL data 0 4)
            LTP := bigEndianToInt (sliceL data 4 8) }) := by
  constructor
  · intro data h2 h16
    unfold parseBinaryToTickData
    rw [if_neg (by omega), if_pos (by omega)]
  · intro data h18 h80
    unfold parseBinaryToTickData
    rw [if_neg (by omega), if_neg (by omega)]
    unfold applyDepthIf applyExtendedIf applyCloseIf baseTick
    rw [if_neg (by omega), if_neg (by omega), if_neg (by omega)]

/-- Witness for C1 at a 2-byte frame and at a concrete 18-byte frame. -/
theorem c1_witness :
    parseBinaryToTickData [9, 9] = .error (.invalidDataLength 2)
    ∧ parseBinaryToTickData [0, 0, 0, 1, 0, 0, 0, 105, 0, 0, 0, 0, 0, 0, 0, 0, 100, 7]
        = .ok { zeroTick with Token := 1, LTP := 105 } := by
  constructor
  · exact c1_amended.1 [9, 9] (by decide) (by decide)
  · rw [c1_amended.2 [0, 0, 0, 1, 0, 0, 0, 105, 0, 0, 0, 0, 0, 0, 0, 0, 100, 7] (by decide) (by decide)]
    decide

/-! ### Claim C3 -/

/-- C3, counterexample: the 17-byte frame with LTP 129 and close 100
decodes with net change 28 — the program's twice-rounded float64
computation gives `(29/100.0)*100 = 28.999999999999996`, truncated to 28 —
whereas the claim's exact formula `(LTP − close) / close × 100` truncated
to an integer gives 29.  This refutes the original claim at a concrete
input inside its own scope (nonzero close, no overflow). -/
theorem c3_counterexample :
    (parseBinaryToTickData [0, 0, 0, 2, 0, 0, 0, 129, 0, 0, 0, 0, 0, 0, 0, 0, 100]).isOk = true
    ∧ (okTick (parseBinaryToTickData [0, 0, 0, 2, 0, 0, 0, 129, 0, 0, 0, 0, 0, 0, 0, 0, 100])).LTP = 129
    ∧ (okTick (parseBinaryToTickData [0, 0, 0, 2, 0, 0, 0, 129, 0, 0, 0, 0, 0, 0, 0, 0, 100])).Close = 100
    ∧ (okTick (parseBinaryToTickData [0, 0, 0, 2, 0, 0, 0, 129, 0, 0, 0, 0, 0, 0, 0, 0, 100])).NetChange = 28
    ∧ ratTrunc (((129 - 100 : Int) : ℚ) / ((100 : Int) : ℚ) * 100) = 29
    ∧ ¬ (okTick (parseBinaryToTickData [0, 0, 0, 2, 0, 0, 0, 129, 0, 0, 0, 0, 0, 0, 0, 0, 100])).NetChange
        = ratTrunc (((129 - 100 : Int) : ℚ) / ((100 : Int) : ℚ) * 100) := by
  have h29 : ratTrunc (((129 - 100 : Int) : ℚ) / ((100 : Int) : ℚ) * 100) = 29 := by
    rw [ratTrunc_formula (129 - 100) 100 (by decide)]
    decide
  refine ⟨by decide, by decide, by decide, by decide, h29, ?_⟩
  rw [h29]
  decide

/-- C3, amended: a 17-byte frame (written out as its 17 bytes) decodes
successfully with token from bytes 0-4, LTP from bytes 4-8, close from
bytes 13-17 (all big-endian signed 32-bit), net change equal to the
float64 evaluation of `(LTP − close) / close × 100` — quotient rounded to
the nearest binary64 double, product by 100 rounded again, truncated
toward zero (`float64NetChange`), which can differ by one from the exact
truncated formula — and the indicator sentinel 43 when LTP > close, 45
when LTP < close, 32 when equal; in particular LTP = 105, close = 100
gives net change 5 and indicator 43.  The hypothesis `_hC0` scopes the
claim away from the zero-divisor case (settled by C10), where Go's float
division yields an infinity and the `int32` conversion is
implementation-defined; it is not otherwise used.  The hypotheses
`hs1`-`hq2` confine the statement to the regime where the Go `int32`
subtraction and float-to-int conversion cannot overflow. -/
theorem c3_amended (b0 b1 b2 b3 b4 b5 b6 b7 b8 b9 b10 b11 b12 b13 b14 b15 b16 : Nat)
    (L C : Int)
    (hL : L = bigEndianToInt [b4, b5, b6, b7])
    (hC : C = bigEndianToInt [b13, b14, b15, b16])
    (_hC0 : C ≠ 0)
    (hs1 : -(2 ^ 31) ≤ L - C) (hs2 : L - C < 2 ^ 31)
    (hq1 : -(2 ^ 31) ≤ float64NetChange (L - C) C)
    (hq2 : float64NetChange (L - C) C < 2 ^ 31) :
    ((parseBinaryToTickData [b0, b1, b2, b3, b4, b5, b6, b7, b8, b9, b10, b11, b12, b13, b14, b15, b16]).isOk = true
      ∧ (okTick (parseBinaryToTickData [b0, b1, b2, b3, b4, b5, b6, b7, b8, b9, b10, b11, b12, b13, b14, b15, b16])).Token
          = bigEndianToInt [b0, b1, b2, b3]
      ∧ (okTick (parseBinaryToTickData [b0, b1, b2, b3, b4, b5, b6, b7, b8, b9, b10, b11, b12, b13, b14, b15, b16])).LTP = L
      ∧ (okTick (parseBinaryToTickData [b0, b1, b2, b3, b4, b5, b6, b7, b8, b9, b10, b11, b12, b13, b14, b15, b16])).Close = C
      ∧ (okTick (parseBinaryToTickData [b0, b1, b2, b3, b4, b5, b6, b7, b8, b9, b10, b11, b12, b13, b14, b15, b16])).NetChange
          = float64NetChange (L - C) C
      ∧ (okTick (parseBinaryToTickData [b0, b1, b2, b3, b4, b5, b6, b7, b8, b9, b10, b11, b12, b13, b14, b15, b16])).NetChangeIndicator
          = (if L > C then 43 else if L < C then 45 else 32))
    ∧ ((okTick (parseBinaryToTickData [0, 0, 0, 1, 0, 0, 0, 105, 0, 0, 0, 0, 0, 0, 0, 0, 100])).NetChange = 5
       ∧ (okTick (parseBinaryToTickData [0, 0, 0, 1, 0, 0, 0, 105, 0, 0, 0, 0, 0, 0, 0, 0, 100])).NetChangeIndicator = 43) := by
  subst hL hC
  refine ⟨⟨rfl, rfl, rfl, rfl, ?_, rfl⟩, by decide, by decide⟩
  show netChangeGo (bigEndianToInt [b4, b5, b6, b7]) (bigEndianToInt [b13, b14, b15, b16]) = _
  unfold netChangeGo
  rw [wrap32_eq_self hs1 hs2, wrap32_eq_self hq1 hq2]

/-- Witness for C3 at the frame with token 1, LTP 105, close 100. -/
theorem c3_witness :
    ((parseBinaryToTickData [0, 0, 0, 1, 0, 0, 0, 105, 0, 0, 0, 0, 0, 0, 0, 0, 100]).isOk = true
      ∧ (okTick (parseBinaryToTickData [0, 0, 0, 1, 0, 0, 0, 105, 0, 0, 0, 0, 0, 0, 0, 0, 100])).Token
          = bigEndianToInt [0, 0, 0, 1]
      ∧ (okTick (parseBinaryToTickData [0, 0, 0, 1, 0, 0, 0, 105, 0, 0, 0, 0, 0, 0, 0, 0, 100])).LTP = 105
      ∧ (okTick (parseBinaryToTickData [0, 0, 0, 1, 0, 0, 0, 105, 0, 0, 0, 0, 0, 0, 0, 0, 100])).Close = 100
      ∧ (okTick (parseBinaryToTickData [0, 0, 0, 1, 0, 0, 0, 105, 0, 0, 0, 0, 0, 0, 0, 0, 100])).NetChange
          = float64NetChange (105 - 100) 100
      ∧ (okTick (parseBinaryToTickData [0, 0, 0, 1, 0, 0, 0, 105, 0, 0, 0, 0, 0, 0, 0, 0, 100])).NetChangeIndicator
          = (if (105 : Int) > 100 then 43 else if (105 : Int) < 100 then 45 else 32))
    ∧ ((okTick (parseBinaryToTickData [0, 0, 0, 1, 0, 0, 0, 105, 0, 0, 0, 0, 0, 0, 0, 0, 100])).NetChange = 5
       ∧ (okTick (parseBinaryToTickData [0, 0, 0, 1, 0, 0, 0, 105, 0, 0, 0, 0, 0, 0, 0, 0, 100])).NetChangeIndicator = 43) :=
  c3_amended 0 0 0 1 0 0 0 105 0 0 0 0 0 0 0 0 100 105 100
    (by decide) (by decide) (by decide) (by decide) (by decide) (by decide) (by decide)

/-! ### Claim C4 -/

theorem sliceChecked_eq (data : List Nat) (a b : Nat) (h1 : a ≤ b) (h2 : b ≤ data.length) :
    sliceChecked data a b = some (sliceL data a b) := by
  unfold sliceChecked
  rw [if_pos ⟨h1, h2⟩]

theorem baseTickChecked_eq (data : List Nat) (h : 17 ≤ data.length) :
    baseTickChecked data = some (baseTick data) := by
  unfold baseTickChecked baseTick
  rw [sliceChecked_eq data 0 4 (by omega) (by omega), sliceChecked_eq data 4 8 (by omega) (by omega)]
  rfl

theorem applyCloseIfChecked_eq (data : List Nat) (t : TickData) :
    applyCloseIfChecked data t = some (applyCloseIf data t) := by
  unfold applyCloseIfChecked applyCloseIf
  by_cases h17 : data.length = 17
  · rw [if_pos h17, if_pos h17, sliceChecked_eq data 13 17 (by omega) (by omega)]
    rfl
  · rw [if_neg h17, if_neg h17]
    rfl

theorem applyExtendedIfChecked_eq (data : List Nat) (t : TickData) :
    applyExtendedIfChecked data t = some (applyExtendedIf data t) := by
  unfold applyExtendedIfChecked applyExtendedIf
  by_cases h81 : 81 ≤ data.length
  · rw [if_pos h81, if_pos h81,
      sliceChecked_eq data 17 21 (by omega) (by omega),
      sliceChecked_eq data 21 29 (by omega) (by omega),
      sliceChecked_eq data 29 37 (by omega) (by omega),
      sliceChecked_eq data 37 41 (by omega) (by omega),
      sliceChecked_eq data 41 45 (by omega) (by omega),
      sliceChecked_eq data 45 49 (by omega) (by omega),
      sliceChecked_eq data 49 53 (by omega) (by omega),
      sliceChecked_eq data 53 61 (by omega) (by omega),
      sliceChecked_eq data 61 65 (by omega) (by omega),
      sliceChecked_eq data 65 69 (by omega) (by omega),
      sliceChecked_eq data 69 73 (by omega) (by omega),
      sliceChecked_eq data 73 77 (by omega) (by omega),
      sliceChecked_eq data 77 81 (by omega) (by omega)]
    rfl
  · rw [if_neg h81, if_neg h81]
    rfl

theorem depthLevelAtChecked_eq (data : List Nat) (off : Nat) (h : off + 14 ≤ data.length) :
    depthLevelAtChecked data off = some (depthLevelAt data off) := by
  unfold depthLevelAtChecked depthLevelAt
  rw [sliceChecked_eq data off (off + 8) (by omega) (by omega),
    sliceChecked_eq data (off + 8) (off + 12) (by omega) (by omega),
    sliceChecked_eq data (off + 12) (off + 14) (by omega) (by omega)]
  rfl

theorem applyDepthIfChecked_eq (data : List Nat) (t : TickData) :
    applyDepthIfChecked data t = some (applyDepthIf data t) := by
  unfold applyDepthIfChecked applyDepthIf
  by_cases h229 : data.length = 229
  · rw [if_pos h229, if_pos h229,
      sliceChecked_eq data 81 85 (by omega) (by omega),
      sliceChecked_eq data 85 89 (by omega) (by omega),
      depthLevelAtChecked_eq data 89 (by omega),
      depthLevelAtChecked_eq data 103 (by omega),
      depthLevelAtChecked_eq data 117 (by omega),
      depthLevelAtChecked_eq data 131 (by omega),
      depthLevelAtChecked_eq data 145 (by omega),
      depthLevelAtChecked_eq data 159 (by omega),
      depthLevelAtChecked_eq data 173 (by omega),
      depthLevelAtChecked_eq data 187 (by omega),
      depthLevelAtChecked_eq data 201 (by omega),
      depthLevelAtChecked_eq data 215 (by omega)]
    rfl
  · rw [if_neg h229, if_neg h229]
    rfl

/-- C4: the decoder is total and memory-safe at its interface.  For every
input byte sequence of any length, the bounds-checked decoder — which
returns `none` exactly when any Go slice or index access would be out of
bounds, i.e. would panic — completes with `some` of the plain decoder's
result, so no access ever reads outside the supplied buffer; and the plain
decoder returns a tick exactly for lengths 1 and ≥ 17 and the
malformed-frame error for every other length (in particular lengths 0 and
2-16), never anything else. -/
theorem c4_total_and_memory_safe (data : List Nat) :
    parseBinaryChecked data = some (parseBinaryToTickData data)
    ∧ ((parseBinaryToTickData data).isOk = true ↔ (data.length = 1 ∨ 17 ≤ data.length)) := by
  constructor
  · unfold parseBinaryChecked parseBinaryToTickData
    by_cases h1 : data.length = 1
    · rw [if_pos h1, if_pos h1]
      match data, h1 with
      | [b], _ => rfl
    · by_cases h2 : data.length < 17
      · rw [if_neg h1, if_neg h1, if_pos h2, if_pos h2]
        rfl
      · rw [if_neg h1, if_neg h1, if_neg h2, if_neg h2,
          baseTickChecked_eq data (by omega)]
        show (applyCloseIfChecked data (baseTick data)).bind _ = _
        rw [applyCloseIfChecked_eq data _]
        show (applyExtendedIfChecked data _).bind _ = _
        rw [applyExtendedIfChecked_eq data _]
        show (applyDepthIfChecked data _).bind _ = _
        rw [applyDepthIfChecked_eq data _]
        rfl
  · unfold parseBinaryToTickData
    by_cases h1 : data.length = 1
    · rw [if_pos h1]
      exact ⟨fun _ => Or.inl h1, fun _ => rfl⟩
    · by_cases h2 : data.length < 17
      · rw [if_neg h1, if_pos h2]
        exact ⟨fun hh => (Bool.false_ne_true hh).elim, fun hh => absurd hh (by omega)⟩
      · rw [if_neg h1, if_neg h2]
        exact ⟨fun _ => Or.inr (by omega), fun _ => rfl⟩

/-! ### Claim C2 -/

/-- C2, counterexample: with the error queue (capacity 100, per `NewWS`)
already holding 100 items, the receive loop's error emission — the plain
channel send `ws.errChan <- err` — does not complete (`none`): the
producer BLOCKS instead of dropping the error and continuing, refuting the
claim that the enqueue never blocks for every state of the error queue. -/
theorem c2_counterexample :
    initialErrChan.cap = 100
    ∧ emitError ⟨100, List.replicate 100 (.readError 0)⟩ (.readError 1) = none := by
  constructor
  · rfl
  · decide

/-- C2, amended: the receive loop (and `reconnect`) enqueue errors with a
BLOCKING channel send: while the error queue has free space the error is
appended and the send completes; when the queue is full the producer
blocks until a consumer drains the queue — the error is never dropped.
(The non-blocking drop-on-full policy applies only to the tick queue.) -/
theorem c2_amended (q : BQueue RecvError) (e : RecvError) :
    (q.items.length < q.cap → emitError q e = some ⟨q.cap, q.items ++ [e]⟩)
    ∧ (q.cap ≤ q.items.length → emitError q e = none) := by
  constructor
  · intro h
    unfold emitError chanSend
    rw [if_pos h]
  · intro h
    unfold emitError chanSend
    rw [if_neg (by omega)]

/-- Witness for C2 on the freshly created (empty) error queue. -/
theorem c2_witness :
    emitError initialErrChan (.readError 3) = some ⟨100, [.readError 3]⟩ :=
  (c2_amended initialErrChan (.readError 3)).1 (by decide)

/-! ### Claim C5 -/

theorem dataEnqueue_foldl (c : Nat) :
    ∀ (ts : List TickData) (pre : List TickData), pre.length ≤ c →
      (ts.foldl (fun q t => (dataEnqueue q t).1) ⟨c, pre⟩).items
        = pre ++ ts.take (c - pre.length)
  | [], pre, _ => by simp
  | t :: ts, pre, hpre => by
    by_cases h : pre.length < c
    · have hstep : (dataEnqueue ⟨c, pre⟩ t).1 = ⟨c, pre ++ [t]⟩ := by
        unfold dataEnqueue chanTrySend
        rw [if_pos (by simpa using h)]
      rw [List.foldl_cons, hstep, dataEnqueue_foldl c ts (pre ++ [t]) (by simp; omega)]
      have hc : c - pre.length = (c - (pre.length + 1)) + 1 := by omega
      rw [hc, List.take_succ_cons]
      simp
    · have hc : c - pre.length = 0 := by omega
      have hstep : (dataEnqueue ⟨c, pre⟩ t).1 = ⟨c, pre⟩ := by
        unfold dataEnqueue chanTrySend
        rw [if_neg (by simpa using h)]
      rw [List.foldl_cons, hstep, dataEnqueue_foldl c ts pre hpre, hc]
      simp [hc]

/-- C5: the tick delivery queue (capacity 1000, per `NewWS`) never exceeds
its capacity, enqueue into a full queue leaves the queue unchanged with the
newly produced tick discarded (and the select hits the `default` branch, so
the producer never blocks), and enqueuing 1001 ticks in succession into the
fresh queue leaves exactly the FIRST 1000 of them — the newest is dropped,
not the oldest evicted. -/
theorem c5_tick_queue_drop_newest :
    (∀ (q : BQueue TickData) (t : TickData), q.items.length ≤ q.cap →
      ((dataEnqueue q t).1.items.length ≤ q.cap
       ∧ (dataEnqueue q t).1.cap = q.cap
       ∧ (q.items.length = q.cap → (dataEnqueue q t).1 = q ∧ (dataEnqueue q t).2 = false)))
    ∧ initialDataChan.cap = 1000
    ∧ (∀ ts : List TickData, ts.length = 1001 →
        (ts.foldl (fun q t => (dataEnqueue q t).1) initialDataChan).items = ts.take 1000
        ∧ (ts.foldl (fun q t => (dataEnqueue q t).1) initialDataChan).items.length = 1000) := by
  refine ⟨?_, rfl, ?_⟩
  · intro q t h
    unfold dataEnqueue chanTrySend
    by_cases hf : q.items.length < q.cap
    · rw [if_pos hf]
      exact ⟨by simp; omega, rfl, fun he => absurd he (by omega)⟩
    · rw [if_neg hf]
      exact ⟨h, rfl, fun _ => ⟨rfl, rfl⟩⟩
  · intro ts h1001
    have hfold := dataEnqueue_foldl 1000 ts [] (by simp)
    have hbase : (⟨1000, []⟩ : BQueue TickData) = initialDataChan := rfl
    rw [hbase] at hfold
    simp at hfold
    refine ⟨hfold, ?_⟩
    rw [hfold]
    simp [List.length_take]
    omega

/-- Witness for C5: 1001 pairwise-distinct ticks enqueued in succession. -/
theorem c5_witness :
    (((List.range 1001).map (fun i => { zeroTick with Token := (i : Int) })).foldl
        (fun q t => (dataEnqueue q t).1) initialDataChan).items
      = ((List.range 1001).map (fun i => { zeroTick with Token := (i : Int) })).take 1000
    ∧ (((List.range 1001).map (fun i => { zeroTick with Token := (i : Int) })).foldl
        (fun q t => (dataEnqueue q t).1) initialDataChan).items.length = 1000 :=
  c5_tick_queue_drop_newest.2.2 _ (by simp)

/-! ### Claim C8 -/

theorem lookup_store_self (t : Int) (m : String) :
    ∀ reg : Registry, lookupMode (storeSub reg t m) t = some m
  | [] => by simp [storeSub, lookupMode, List.find?]
  | p :: rest => by
    by_cases h : p.1 = t
    · simp [storeSub, h, lookupMode, List.find?]
    · simp only [storeSub, if_neg h, lookupMode, List.find?]
      rw [show (p.1 == t) = false by simpa using h]
      exact lookup_store_self t m rest

theorem lookup_store_other (t t' : Int) (m : String) (ht : t' ≠ t) :
    ∀ reg : Registry, lookupMode (storeSub reg t' m) t = lookupMode reg t
  | [] => by
    simp only [storeSub, lookupMode, List.find?]
    rw [show (t' == t) = false by simpa using ht]
  | p :: rest => by
    by_cases h : p.1 = t'
    · simp only [storeSub, if_pos h, lookupMode, List.find?]
      rw [show (t' == t) = false by simpa using ht,
        show (p.1 == t) = false by simp [h]; omega]
    · simp only [storeSub, if_neg h, lookupMode, List.find?]
      cases hpt : (p.1 == t)
      · exact lookup_store_other t t' m ht rest
      · rfl

theorem lookup_store_preserve (t t' : Int) (m : String) (reg : Registry)
    (h : lookupMode reg t = some m) :
    lookupMode (storeSub reg t' m) t = some m := by
  by_cases he : t' = t
  · subst he
    exact lookup_store_self t' m reg
  · rw [lookup_store_other t t' m he reg]
    exact h

theorem lookup_foldl_preserve (t : Int) (m : String) :
    ∀ (tokens : List Int) (reg : Registry), lookupMode reg t = some m →
      lookupMode (tokens.foldl (fun r tk => storeSub r tk m) reg) t = some m
  | [], _, h => h
  | tk :: rest, reg, h => by
    rw [List.foldl_cons]
    exact lookup_foldl_preserve t m rest _ (lookup_store_preserve t tk m reg h)

theorem subscribe_records (m : String) :
    ∀ (tokens : List Int) (reg : Registry) (t : Int), t ∈ tokens →
      lookupMode (tokens.foldl (fun r tk => storeSub r tk m) reg) t = some m
  | tk :: rest, reg, t, hmem => by
    rw [List.foldl_cons]
    rcases List.mem_cons.mp hmem with he | hrest
    · subst he
      by_cases hr : t ∈ rest
      · exact subscribe_records m rest _ t hr
      · exact lookup_foldl_preserve t m rest _ (lookup_store_self t m reg)
    · exact subscribe_records m rest _ t hrest

/-- C8: when `Subscribe(tokens, mode)` cannot transmit the control message
because there is no live connection (`ws.Conn == nil`), it returns the
send error to the caller, yet the registry mutation is not rolled back: for
every prior registry state, every token of the list is recorded in the
updated registry with the given mode. -/
theorem c8_no_rollback (s : WSState) (tokens : List Int) (mode : String) :
    (s.connAlive = false → (Subscribe s tokens mode).2 = .error .closeSent)
    ∧ (∀ t ∈ tokens, lookupMode (Subscribe s tokens mode).1.registry t = some mode) := by
  constructor
  · intro h
    simp [Subscribe, sendJSONMessage, h]
  · intro t ht
    exact subscribe_records mode tokens s.registry t ht

/-- Witness for C8: subscribing tokens 1 and 2 with no live connection. -/
theorem c8_witness :
    (Subscribe ⟨false, [(7, "ltp")], []⟩ [1, 2] "full").2 = .error .closeSent
    ∧ lookupMode (Subscribe ⟨false, [(7, "ltp")], []⟩ [1, 2] "full").1.registry 1 = some "full"
    ∧ lookupMode (Subscribe ⟨false, [(7, "ltp")], []⟩ [1, 2] "full").1.registry 2 = some "full" :=
  ⟨(c8_no_rollback ⟨false, [(7, "ltp")], []⟩ [1, 2] "full").1 rfl,
   (c8_no_rollback ⟨false, [(7, "ltp")], []⟩ [1, 2] "full").2 1 (by decide),
   (c8_no_rollback ⟨false, [(7, "ltp")], []⟩ [1, 2] "full").2 2 (by decide)⟩

/-! ### Claim C7 -/

theorem mem_tokensForMode (reg : Registry) (m : String) (t : Int) :
    t ∈ tokensForMode reg m ↔ (t, m) ∈ reg := by
  unfold tokensForMode
  simp only [List.mem_map, List.mem_filter, beq_iff_eq]
  constructor
  · rintro ⟨p, ⟨hp, hm⟩, ht⟩
    have hpe : p = (t, m) := by
      cases p
      simp_all
    rwa [hpe] at hp
  · intro h
    exact ⟨(t, m), ⟨h, rfl⟩, rfl⟩

theorem mem_modesOf (reg : Registry) (m : String) :
    m ∈ modesOf reg ↔ ∃ t, (t, m) ∈ reg := by
  unfold modesOf
  rw [List.mem_dedup]
  simp only [List.mem_map]
  constructor
  · rintro ⟨p, hp, hm⟩
    refine ⟨p.1, ?_⟩
    cases p
    simp_all
  · rintro ⟨t, ht⟩
    exact ⟨(t, m), ht, rfl⟩

theorem map_mode_resubscribeAll (reg : Registry) :
    (resubscribeAll reg).map SubMessage.mode = modesOf reg := by
  unfold resubscribeAll subscribeMessage
  rw [List.map_map]
  simp [Function.comp_def]

/-- Supporting lemma: what the `resubscribeAll` loop emits when its
`Subscribe` calls can run — exactly one subscribe control message per
distinct mode present in the registry (message modes pairwise distinct, a
mode occurs among the messages exactly when some token is assigned to it),
each with code `"sub"` and listing exactly the tokens assigned to its
mode.  In the program this is reachable only with an empty registry: see
`c7_resubscribe_deadlock`. -/
theorem c7_one_message_per_mode (reg : Registry) :
    ((resubscribeAll reg).map SubMessage.mode).Nodup
    ∧ (∀ m : String, (∃ msg ∈ resubscribeAll reg, msg.mode = m) ↔ ∃ t, (t, m) ∈ reg)
    ∧ (∀ msg ∈ resubscribeAll reg, msg.code = "sub"
        ∧ ∀ t : Int, (t ∈ msg.tokens ↔ (t, msg.mode) ∈ reg)) := by
  refine ⟨?_, ?_, ?_⟩
  · rw [map_mode_resubscribeAll]
    exact (reg.map Prod.snd).nodup_dedup
  · intro m
    constructor
    · rintro ⟨msg, hmsg, rfl⟩
      obtain ⟨m', hm', rfl⟩ := List.mem_map.mp hmsg
      exact (mem_modesOf reg m').mp hm'
    · rintro ⟨t, ht⟩
      refine ⟨subscribeMessage (tokensForMode reg m) m, ?_, rfl⟩
      exact List.mem_map.mpr ⟨m, (mem_modesOf reg m).mpr ⟨t, ht⟩, rfl⟩
  · intro msg hmsg
    obtain ⟨m', hm', rfl⟩ := List.mem_map.mp hmsg
    exact ⟨rfl, fun t => mem_tokensForMode reg m' t⟩

/-- C7: the resubscription step as the program actually runs it — from
`Connect()` with `ws.mu` already write-locked — DEADLOCKS for every
nonempty registry: the first `Subscribe` call re-acquires the
non-reentrant `ws.mu` and blocks forever (`none`), so no subscribe message
is ever emitted, contradicting the claim that one message per mode is
emitted; only the empty registry completes (vacuously, with no messages).
Were the lock not held, the step would complete and emit exactly the
grouped messages (`resubscribeAll`, characterized by
`c7_one_message_per_mode`) — which is why this is recorded as a bug in the
code rather than an error in the spec. -/
theorem c7_resubscribe_deadlock :
    (∀ reg : Registry, modesOf reg ≠ [] → resubscribeAllLocked true reg = none)
    ∧ (∀ reg : Registry, resubscribeAllLocked false reg = some (resubscribeAll reg))
    ∧ resubscribeAllLocked true [(1, "ltp")] = none := by
  refine ⟨?_, ?_, by decide⟩
  · intro reg h
    unfold resubscribeAllLocked
    cases hm : modesOf reg with
    | nil => exact absurd hm h
    | cons a l => rfl
  · intro reg
    unfold resubscribeAllLocked
    cases hm : modesOf reg with
    | nil =>
      unfold resubscribeAll
      rw [hm]
      rfl
    | cons a l => rfl

/-- Witness for C7: a one-entry registry deadlocks under the held lock and
would emit its message without it. -/
theorem c7_deadlock_witness :
    resubscribeAllLocked true [(1, "ltp")] = none
    ∧ resubscribeAllLocked false [(1, "ltp")] = some (resubscribeAll [(1, "ltp")]) :=
  ⟨c7_resubscribe_deadlock.1 [(1, "ltp")] (by decide),
   c7_resubscribe_deadlock.2.1 [(1, "ltp")]⟩

/-! ### Claim C6 -/

theorem connectSteps_fail {E : Type} (errs : Nat → E) (total delay : Nat) :
    ∀ (l : List Nat) (last : Option E),
      connectSteps (fun i => .error (errs i)) total delay l last
        = (l.flatMap (fun a =>
             [.logAttempt a total, .dialTry a, .logRetryWait, .sleepDelay delay]),
           .failedAfter total (lastErrAux errs l last))
  | [], last => by simp [connectSteps, lastErrAux]
  | a :: l, last => by
    show (_ :: _ :: _ :: _ :: (connectSteps _ total delay l (some (errs a))).1, _) = _
    rw [connectSteps_fail errs total delay l (some (errs a))]
    simp [lastErrAux, List.flatMap_cons]

theorem lastErrAux_range' {E : Type} (errs : Nat → E) :
    ∀ (n s : Nat) (last : Option E),
      lastErrAux errs (List.range' s (n + 1)) last = some (errs (s + n))
  | 0, s, last => rfl
  | n + 1, s, last => by
    show lastErrAux errs (List.range' (s + 1) (n + 1)) (some (errs s)) = _
    rw [lastErrAux_range' errs n (s + 1)]
    have hsn : s + 1 + n = s + (n + 1) := by omega
    rw [hsn]

theorem countP_dial_blocks (total delay : Nat) :
    ∀ l : List Nat,
      (l.flatMap (fun a =>
          [ConnEvent.logAttempt a total, .dialTry a, .logRetryWait, .sleepDelay delay])).countP
        isDialTry = l.length
  | [] => rfl
  | a :: l => by
    rw [List.flatMap_cons, List.countP_append, countP_dial_blocks total delay l]
    simp [isDialTry, List.countP_cons]
    omega

/-- C6: with `MaxRetries = N ≥ 1` and a dialer that fails on every attempt,
`Connect()` produces exactly the trace consisting, for each attempt ordinal
1..N in order, of the attempt-ordinal log line, the dial, the retry log
line and the fixed-delay sleep (so there are exactly N dial attempts, each
logged with its ordinal and separated by the configured delay), and it
returns the terminal error wrapping the last (N-th) dial failure. -/
theorem c6_connect_exhausts_retries {E : Type} (errs : Nat → E) (N delay : Nat)
    (hN : 1 ≤ N) :
    Connect (fun i => .error (errs i)) N delay
      = ((List.range' 1 N).flatMap (fun a =>
            [.logAttempt a N, .dialTry a, .logRetryWait, .sleepDelay delay]),
         .failedAfter N (some (errs N)))
    ∧ ((Connect (fun i => .error (errs i)) N delay).1.countP isDialTry) = N := by
  obtain ⟨n, rfl⟩ : ∃ n, N = n + 1 := ⟨N - 1, by omega⟩
  have h1 := connectSteps_fail errs (n + 1) delay (List.range' 1 (n + 1)) none
  rw [lastErrAux_range' errs n 1 none] at h1
  have h2 : 1 + n = n + 1 := by omega
  rw [h2] at h1
  unfold Connect
  rw [h1]
  exact ⟨rfl, countP_dial_blocks (n + 1) delay (List.range' 1 (n + 1)) ▸ by
    rw [List.length_range']⟩

/-- Witness for C6 with two attempts, delay 7, and attempt-indexed errors. -/
theorem c6_witness :
    Connect (fun i => (Except.error i : Except Nat Unit)) 2 7
      = ((List.range' 1 2).flatMap (fun a =>
            [.logAttempt a 2, .dialTry a, .logRetryWait, .sleepDelay 7]),
         .failedAfter 2 (some 2))
    ∧ ((Connect (fun i => (Except.error i : Except Nat Unit)) 2 7).1.countP isDialTry) = 2 :=
  c6_connect_exhausts_retries (fun i => i) 2 7 (by decide)

end GoTiqs

